import Mathlib

/-!
Verification development for the COMS-1 LRIT/HRIT demultiplexer
(`demux/ccsds.py`, `demux/demuxer.py`).

Byte strings are modelled as `List Nat` (one `Nat` per byte, MSB-first on
the wire).  Python exceptions are modelled by an explicit result type:
`AttributeError` (which `Channel.data_in` catches) is distinguished from
every other failure (which propagates).  File and console output is
modelled as explicit lists returned by the corresponding functions.
-/

/-- Python exception kinds relevant to the demuxer: `attr` is
`AttributeError` (caught by `Channel.data_in`); `fail` is any other
exception (propagates to the caller). -/
inductive Exc
  | attr
  | fail
deriving DecidableEq

/-- Result of running a piece of Python code: a value, or a raised
exception. -/
inductive Res (α : Type)
  | ok (a : α)
  | err (e : Exc)
deriving DecidableEq

/-- Big-endian interpretation of a byte string as an unsigned integer,
mirroring Python's `int.from_bytes(data, byteorder='big')` (empty slice
gives 0). -/
def bytesToNat (bs : List Nat) : Nat :=
  bs.foldl (fun a b => a * 256 + b) 0

/-- Modelled from the spec: `tools.get_bits_int` (the `tools` module is
not part of the sources).  Per spec §4.1, `read_bits(buf, bit_offset,
bit_width, total_bits)` returns the unsigned integer spanning the given
contiguous bit range, MSB-first, from a buffer of `total_bits` bits, and
fails when the range exceeds the buffer.  Callers below always pass a
slice whose byte length matches `total / 8` and check that bound
beforehand. -/
def get_bits_int (bs : List Nat) (start width total : Nat) : Nat :=
  (bytesToNat bs >>> (total - (start + width))) % 2 ^ width

/-- `int.from_bytes(bs[off : off+1], 'big')`: the single byte at `off`,
or 0 when the slice is empty. -/
def byteAt (bs : List Nat) (off : Nat) : Nat :=
  bytesToNat ((bs.drop off).take 1)

/-- `int.from_bytes(bs[off : off+2], 'big')`: big-endian 16-bit read at
`off` (shorter when the buffer ends). -/
def be16At (bs : List Nat) (off : Nat) : Nat :=
  bytesToNat ((bs.drop off).take 2)

/-!  ## Python float division `int(n / 8)`

`TP_File.parse` computes `int(get_bits_int(header, 16, 64, 80) / 8)`.
Python's `/` on integers is true division producing a correctly rounded
IEEE-754 double; dividing by 8 only shifts the exponent, so the result
equals (round-to-nearest-even of `n` to 53 significant bits) / 8, and
`int(·)` then truncates toward zero. -/

/-- Number of binary digits of `n`, with explicit fuel (all inputs here
are below `2 ^ 64`, so fuel 64 suffices). -/
def sizeAux : Nat → Nat → Nat
  | 0, _ => 0
  | fuel + 1, n => if n = 0 then 0 else sizeAux fuel (n / 2) + 1

/-- Round-to-nearest-even of `n < 2 ^ 64` to a 53-bit significand: the
value of the IEEE-754 double nearest to `n`. -/
def roundDouble53 (n : Nat) : Nat :=
  let s := sizeAux 64 n
  if s ≤ 53 then n
  else
    let d := s - 53
    let q := n / 2 ^ d
    let r := n % 2 ^ d
    let half := 2 ^ (d - 1)
    let q' := if half < r ∨ (r = half ∧ q % 2 = 1) then q + 1 else q
    q' * 2 ^ d

/-- `int(n / 8)` in Python for a nonnegative integer `n < 2 ^ 64`:
round `n` to the nearest double, divide by 8 (exact), truncate. -/
def pyIntDivFloat8 (n : Nat) : Nat :=
  roundDouble53 n / 8

/-! ## CP_PDU (`ccsds.py`, class `CP_PDU`) -/

/-- CP_PDU sequence flag, decoded from the 2-bit wire value by
`CP_PDU.parse` (the source stores the strings "CONTINUE", "FIRST",
"LAST", "SINGLE"). -/
inductive SeqFlag
  | CONTINUE
  | FIRST
  | LAST
  | SINGLE
deriving DecidableEq

/-- `seqn = ["CONTINUE", "FIRST", "LAST", "SINGLE"]; seqn[v]`. -/
def SeqFlag.ofBits : Nat → SeqFlag
  | 0 => .CONTINUE
  | 1 => .FIRST
  | 2 => .LAST
  | _ => .SINGLE

/-- Parsed CP_PDU state: header fields plus accumulated payload. -/
structure CP_PDU where
  VER : Nat
  TYPE : Nat
  SHF : Nat
  APID : Nat
  SEQ : SeqFlag
  COUNTER : Nat
  LENGTH : Nat
  PAYLOAD : List Nat
deriving DecidableEq

/-- `CP_PDU.parse`: decode the 6-byte primary header, put the rest in
the payload.  Fails (per the spec's `read_bits` contract) when fewer
than 6 bytes are available. -/
def CP_PDU.parse (data : List Nat) : Option CP_PDU :=
  if data.length < 6 then none
  else
    let h := data.take 6
    some
      { VER := get_bits_int h 0 3 48
        TYPE := get_bits_int h 3 1 48
        SHF := get_bits_int h 4 1 48
        APID := get_bits_int h 5 11 48
        SEQ := SeqFlag.ofBits (get_bits_int h 16 2 48)
        COUNTER := get_bits_int h 18 14 48
        LENGTH := get_bits_int h 32 16 48 + 1
        PAYLOAD := data.drop 6 }

/-- `CP_PDU.append`. -/
def CP_PDU.append (cp : CP_PDU) (d : List Nat) : CP_PDU :=
  { cp with PAYLOAD := cp.PAYLOAD ++ d }

/-- One step of the table-driven CRC-16/CCITT-FALSE loop in
`CP_PDU.CRC`:
`lutPos = ((crc >> 8) ^ b) & 0xFFFF; crc = ((crc << 8) ^ lut[lutPos]) & 0xFFFF`. -/
def crcStep (lut : Nat → Nat) (crc b : Nat) : Nat :=
  ((crc <<< 8) ^^^ lut (((crc >>> 8) ^^^ b) &&& 65535)) &&& 65535

/-- `CP_PDU.CRC(lut)`: CRC of `PAYLOAD[:-2]` (initial value 0xFFFF)
compared with the big-endian 16-bit trailer `PAYLOAD[-2:]`. -/
def CP_PDU.CRC (cp : CP_PDU) (lut : Nat → Nat) : Bool :=
  let data := cp.PAYLOAD.take (cp.PAYLOAD.length - 2)
  let txCRC := cp.PAYLOAD.drop (cp.PAYLOAD.length - 2)
  if data.foldl (crcStep lut) 65535 = bytesToNat txCRC then true else false

/-- `CP_PDU.finish(data, crclut)`: append the final chunk, then return
the updated CP_PDU together with `(lenok, crcok)`. -/
def CP_PDU.finish (cp : CP_PDU) (d : List Nat) (lut : Nat → Nat) :
    CP_PDU × Bool × Bool :=
  let cp' := cp.append d
  let lenok := if cp'.PAYLOAD.length ≠ cp.LENGTH then false else true
  let crcok := if ¬ cp'.CRC lut then false else true
  (cp', lenok, crcok)

/-- `CP_PDU.is_EOF`: the EOF-marker pattern. -/
def CP_PDU.is_EOF (cp : CP_PDU) : Bool :=
  if cp.COUNTER = 0 ∧ cp.APID = 0 ∧ cp.LENGTH = 1 ∧ cp.SEQ = .CONTINUE
  then true else false

/-! ## TP_File (`ccsds.py`, class `TP_File`) -/

/-- Parsed TP_File state. -/
structure TP_File where
  COUNTER : Nat
  LENGTH : Nat
  PAYLOAD : List Nat
deriving DecidableEq

/-- `TP_File.parse`: 10-byte header
`{file_counter:16, file_length_bits:64}`;
`LENGTH = int(file_length_bits / 8)` (Python float division, see
`pyIntDivFloat8`).  Fails when fewer than 10 bytes are available. -/
def TP_File.parse (data : List Nat) : Option TP_File :=
  if data.length < 10 then none
  else
    let h := data.take 10
    some
      { COUNTER := get_bits_int h 0 16 80
        LENGTH := pyIntDivFloat8 (get_bits_int h 16 64 80)
        PAYLOAD := data.drop 10 }

/-- `TP_File.append`. -/
def TP_File.append (t : TP_File) (d : List Nat) : TP_File :=
  { t with PAYLOAD := t.PAYLOAD ++ d }

/-- `TP_File.finish(data)`: append the final chunk, return the updated
TP_File and `lenok`. -/
def TP_File.finish (t : TP_File) (d : List Nat) : TP_File × Bool :=
  let t' := t.append d
  (t', if t'.PAYLOAD.length ≠ t.LENGTH then false else true)

/-! ## S_PDU (`ccsds.py`, class `S_PDU`) -/

/-- The DES-block padding loop in `S_PDU.parse`:
`dFMod8 = len(dataField) % 8; if dFMod8 != 0: for i in range(dFMod8):
dataField += b'x00'`.  Note `b'x00'` is the three ASCII bytes
`'x','0','0'` = `[120, 48, 48]`, appended `dFMod8` times. -/
def spduPad (l : List Nat) : List Nat :=
  if l.length % 8 ≠ 0 then
    l ++ (List.replicate (l.length % 8) [120, 48, 48]).flatten
  else l

/-- The header-chain walk in `S_PDU.parse`: starting at offset 0, stop
at the first record whose type byte is 7, else advance by the record's
16-bit length field.  The Python `while` loop can fail to terminate
(zero-length record); the fuel parameter models that as `none`. -/
def spduWalk (hf : List Nat) : Nat → Nat → Option Nat
  | 0, _ => none
  | fuel + 1, off =>
    if byteAt hf off = 7 then some off
    else spduWalk hf fuel (off + be16At hf (off + 1))

/-- Header field of an S_PDU: `data[:TOTAL_HEADER_LEN]` where
`TOTAL_HEADER_LEN` is bits 32..64 of the 16-byte primary header. -/
def spduHeaderField (data : List Nat) : List Nat :=
  data.take (get_bits_int (data.take 16) 32 32 128)

/-- Data field of an S_PDU before padding:
`data[TOTAL_HEADER_LEN : TOTAL_HEADER_LEN + DATA_LEN]`. -/
def spduDataField (data : List Nat) : List Nat :=
  ((data.drop (get_bits_int (data.take 16) 32 32 128)).take
    (get_bits_int (data.take 16) 64 64 128))

/-- The 2-byte key index parsed from the key header found at `off`:
`headerField[offset + 5 : offset + keyHLen]`. -/
def spduKeyIndex (data : List Nat) (off : Nat) : List Nat :=
  ((spduHeaderField data).drop (off + 5)).take (be16At (spduHeaderField data) (off + 1) - 5)

/-- `S_PDU.__init__` / `S_PDU.parse` / `S_PDU.decrypt` combined:
the resulting `PLAINTEXT`.  `des k d` stands for the external
`DES.new(k, DES.MODE_ECB).decrypt(d)` (library code, taken as a
parameter); `keys` is the key table as an association list.  `none`
models an uncaught exception or a non-terminating header walk. -/
def S_PDU.plaintext (des : List Nat → List Nat → List Nat)
    (keys : List (List Nat × List Nat)) (data : List Nat) :
    Option (List Nat) :=
  if keys = [] then some data
  else if data.length < 16 then none
  else
    match spduWalk (spduHeaderField data) ((spduHeaderField data).length + 1) 0 with
    | none => none
    | some off =>
      match keys.lookup (spduKeyIndex data off) with
      | some k => some (spduHeaderField data ++ des k (spduPad (spduDataField data)))
      | none => some data

/-! ## Channel handler (`demuxer.py`, class `Channel`) -/

/-- Per-VCID channel handler state (`cCPPDU`, `cTPFile`). -/
structure ChannelState where
  cCPPDU : Option CP_PDU
  cTPFile : Option TP_File
deriving DecidableEq

/-- `Channel.handle_CPPDU`: dispatch a completed CP_PDU to the TP_File
stage.  Returns the new `cTPFile` and the list of emitted xRIT payloads
(a payload is handed to the `S_PDU`/`xRIT.save` emission stage exactly
when it appears in this list).  `.err .attr` is the `AttributeError`
raised by `self.cTPFile.append`/`.finish` when `cTPFile` is `None`;
`.err .fail` is the `read_bits` failure when a FIRST payload is shorter
than the 10-byte TP_File header.  Note the source has no branch for
`SEQ == "SINGLE"`: such a CP_PDU falls through with no effect. -/
def Channel.handle_CPPDU (tf : Option TP_File) (cp : CP_PDU) :
    Res (Option TP_File × List (List Nat)) :=
  match cp.SEQ with
  | .FIRST =>
    match TP_File.parse (cp.PAYLOAD.take (cp.PAYLOAD.length - 2)) with
    | none => .err .fail
    | some t => .ok (some t, [])
  | .CONTINUE =>
    match tf with
    | none => .err .attr
    | some t => .ok (some (t.append (cp.PAYLOAD.take (cp.PAYLOAD.length - 2))), [])
  | .LAST =>
    match tf with
    | none => .err .attr
    | some t =>
      let r := t.finish (cp.PAYLOAD.take (cp.PAYLOAD.length - 2))
      if r.2 then .ok (some r.1, [r.1.PAYLOAD]) else .ok (some r.1, [])
  | .SINGLE => .ok (tf, [])

/-- The `try: ... finish ... handle_CPPDU ... except AttributeError`
block of `Channel.data_in` (lines 214-221): finish the previous CP_PDU
with the bytes before the pointer and dispatch it; a missing CP_PDU or
a missing TP_File (`AttributeError`) is caught, leaving `cTPFile`
unchanged and emitting nothing. -/
def Channel.finishPrev (lut : Nat → Nat) (cpOpt : Option CP_PDU)
    (tf : Option TP_File) (tail : List Nat) :
    Res (Option TP_File × List (List Nat)) :=
  match cpOpt with
  | none => .ok (tf, [])
  | some cp =>
    match Channel.handle_CPPDU tf (cp.finish tail lut).1 with
    | .ok r => .ok r
    | .err .attr => .ok (tf, [])
    | .err .fail => .err .fail

/-- The "short CP_PDU" block of `Channel.data_in` (lines 229-241): when
the freshly opened CP_PDU's declared length lies in `(1, 886)` and its
payload already exceeds it, trim the payload to the declared length,
finish with an empty tail, and dispatch; `AttributeError` is caught as
above.  Returns the (possibly trimmed) CP_PDU, the new `cTPFile` and
emissions. -/
def Channel.shortCPPDU (lut : Nat → Nat) (cp : CP_PDU) (tf : Option TP_File) :
    Res (CP_PDU × Option TP_File × List (List Nat)) :=
  if 1 < cp.LENGTH ∧ cp.LENGTH < 886 ∧ cp.LENGTH < cp.PAYLOAD.length then
    let cpT := { cp with PAYLOAD := cp.PAYLOAD.take cp.LENGTH }
    let cpF := (cpT.finish [] lut).1
    match Channel.handle_CPPDU tf cpF with
    | .ok (tf', em) => .ok (cpF, tf', em)
    | .err .attr => .ok (cpF, tf, [])
    | .err .fail => .err .fail
  else .ok (cp, tf, [])

/-- `M_PDU.parse`: 2-byte header with the 11-bit first-header pointer;
`HEADER = (POINTER != 2047)`; the packet zone is the rest. -/
structure M_PDU where
  POINTER : Nat
  PACKET : List Nat
deriving DecidableEq

/-- `M_PDU.parse` as a function on the raw bytes. -/
def M_PDU.parse (data : List Nat) : Option M_PDU :=
  if data.length < 2 then none
  else some { POINTER := get_bits_int (data.take 2) 5 11 16, PACKET := data.drop 2 }

/-- `Channel.data_in`: process one VCDU's M_PDU bytes, returning the new
channel state and the list of emitted xRIT payloads, or a propagated
(non-`AttributeError`) exception. -/
def Channel.data_in (lut : Nat → Nat) (st : ChannelState) (mdata : List Nat) :
    Res (ChannelState × List (List Nat)) :=
  match M_PDU.parse mdata with
  | none => .err .fail
  | some mp =>
    if mp.POINTER ≠ 2047 then
      if mp.POINTER ≠ 0 then
        match Channel.finishPrev lut st.cCPPDU st.cTPFile (mp.PACKET.take mp.POINTER) with
        | .err e => .err e
        | .ok (tf1, em1) =>
          match CP_PDU.parse (mp.PACKET.drop mp.POINTER) with
          | none => .err .fail
          | some cp2 =>
            match Channel.shortCPPDU lut cp2 tf1 with
            | .err e => .err e
            | .ok (cp3, tf2, em2) =>
              .ok ({ cCPPDU := if cp3.is_EOF then none else some cp3,
                     cTPFile := tf2 }, em1 ++ em2)
      else
        match CP_PDU.parse mp.PACKET with
        | none => .err .fail
        | some cp2 =>
          .ok ({ cCPPDU := if cp2.is_EOF then none else some cp2,
                 cTPFile := st.cTPFile }, [])
    else
      match st.cCPPDU with
      | none => .ok (st, [])
      | some cp => .ok ({ st with cCPPDU := some (cp.append mp.PACKET) }, [])

/-! ## Demuxer core (`demuxer.py`, class `Demuxer`) -/

/-- Parsed VCDU header plus the contained M_PDU bytes. -/
structure VCDU where
  VER : Nat
  SCID : Nat
  VCID : Nat
  COUNTER : Nat
  REPLAY : Nat
  SPARE : Nat
  MPDU : List Nat
deriving DecidableEq

/-- `VCDU.parse`: decode the 6-byte header. -/
def VCDU.parse (data : List Nat) : Option VCDU :=
  if data.length < 6 then none
  else
    let h := data.take 6
    some
      { VER := get_bits_int h 0 2 48
        SCID := get_bits_int h 2 8 48
        VCID := get_bits_int h 10 6 48
        COUNTER := get_bits_int h 16 24 48
        REPLAY := get_bits_int h 40 1 48
        SPARE := get_bits_int h 41 7 48
        MPDU := data.drop 6 }

/-- `VCDU.get_SC`: spacecraft name table (`{195: "COMS-1"}`). -/
def VCDU.get_SC (scid : Nat) : Option String :=
  if scid = 195 then some "COMS-1" else none

/-- `Demuxer.continuity`: given the stored counter (`-1` before the
first VCDU) and the current counter, return the new stored counter and
the reported dropped-packet count (`none` when nothing is printed).
The wrap branch (`last == 16777215 and current == 0`) reports nothing;
otherwise `diff = current - last - 1` is reported whenever nonzero
(as a plain signed integer). -/
def Demuxer.continuity (last : Int) (cur : Nat) : Int × Option Int :=
  if last ≠ -1 then
    if last = 16777215 ∧ cur = 0 then ((cur : Int), none)
    else
      let diff : Int := (cur : Int) - last - 1
      if diff ≠ 0 then ((cur : Int), some diff) else ((cur : Int), none)
  else ((cur : Int), none)

/-- Demuxer state: channel handler map (insertion-ordered association
list, as a Python dict) and the global VCDU continuity counter. -/
structure DemuxState where
  channels : List (Nat × ChannelState)
  vcduCounter : Int
deriving DecidableEq

/-- Replace the binding for `v`, or append a fresh one
(`channelHandlers[vcid] = ...`). -/
def DemuxState.upsert : List (Nat × ChannelState) → Nat → ChannelState →
    List (Nat × ChannelState)
  | [], v, c => [(v, c)]
  | (k, x) :: rest, v, c =>
    if k = v then (v, c) :: rest else (k, x) :: DemuxState.upsert rest v c

/-- One iteration of `Demuxer.demux_core` for one dequeued packet.
Returns the new state, the VCDU-dump writes (the raw packets that would
be appended to the dump file when one is configured), the list of VCIDs
a channel handler was dispatched for, and the emitted xRIT payloads.
Order follows the source: dump (non-fill only), spacecraft check,
continuity, fill discard, handler lookup/creation, dispatch. -/
def Demuxer.step (lut : Nat → Nat) (st : DemuxState) (packet : List Nat) :
    Res (DemuxState × List (List Nat) × List Nat × List (List Nat)) :=
  match VCDU.parse packet with
  | none => .err .fail
  | some v =>
    let dump := if v.VCID ≠ 63 then [packet] else []
    if VCDU.get_SC v.SCID ≠ some "COMS-1" then .ok (st, dump, [], [])
    else
      let st1 : DemuxState :=
        { st with vcduCounter := (Demuxer.continuity st.vcduCounter v.COUNTER).1 }
      if v.VCID = 63 then .ok (st1, dump, [], [])
      else
        let ch := ((st1.channels.lookup v.VCID).getD
          { cCPPDU := none, cTPFile := none })
        match Channel.data_in lut ch v.MPDU with
        | .err e => .err e
        | .ok (ch', em) =>
          .ok ({ st1 with channels := DemuxState.upsert st1.channels v.VCID ch' },
               dump, [v.VCID], em)

/-- The CRC-16/CCITT-FALSE step exactly as the spec writes it (table
index masked with `0xFF` rather than the source's `0xFFFF`); used to
state claim C5 and compared against `crcStep`. -/
def crcStepSpec (lut : Nat → Nat) (crc b : Nat) : Nat :=
  ((crc <<< 8) ^^^ lut (((crc >>> 8) ^^^ b) &&& 255)) &&& 65535

/-! ## Helper lemmas -/

/-- `sizeAux` is bounded by any exponent dominating its argument, when
the fuel suffices. -/
theorem sizeAux_le_of_lt (fuel : Nat) :
    ∀ n k : Nat, k ≤ fuel → n < 2 ^ k → sizeAux fuel n ≤ k := by
  induction fuel with
  | zero =>
    intro n k hk hn
    simp only [sizeAux]
    omega
  | succ fuel ih =>
    intro n k hk hn
    by_cases h0 : n = 0
    · simp [sizeAux, h0]
    · have hk0 : k ≠ 0 := by
        rintro rfl
        simp only [pow_zero] at hn
        omega
      obtain ⟨k', rfl⟩ : ∃ k', k = k' + 1 := ⟨k - 1, by omega⟩
      have hdiv : n / 2 < 2 ^ k' := by
        rw [pow_succ] at hn
        omega
      have := ih (n / 2) k' (by omega) hdiv
      simp only [sizeAux, h0, if_false]
      omega

/-- `Demuxer.continuity` always stores the current counter. -/
theorem Demuxer.continuity_fst (last : Int) (cur : Nat) :
    (Demuxer.continuity last cur).1 = (cur : Int) := by
  simp only [Demuxer.continuity]
  split_ifs <;> rfl

/-! ## Claims -/

/-- C1: the claim says a completed CP_PDU with sequence flag SINGLE is
treated as a FIRST immediately followed by a LAST, opening a TP_File
from its payload, finishing it, and emitting one xRIT file.  The source
`Channel.handle_CPPDU` has no branch for SINGLE: this theorem evaluates
the code at a completed SINGLE CP_PDU (with and without an open TP_File)
and shows the channel's TP_File is left untouched and nothing is
emitted. -/
theorem c1_single_cppdu_is_dropped :
    Channel.handle_CPPDU (some ⟨1, 5, [9, 9]⟩)
        ⟨0, 0, 0, 100, .SINGLE, 0, 20, List.replicate 20 1⟩ =
      .ok (some ⟨1, 5, [9, 9]⟩, []) ∧
    Channel.handle_CPPDU none
        ⟨0, 0, 0, 100, .SINGLE, 0, 20, List.replicate 20 1⟩ =
      .ok (none, []) :=
  ⟨rfl, rfl⟩

/-- C2: the claim says the S_PDU data field is padded with 0x00 bytes up
to the next multiple of 8.  The source appends the three-byte ASCII
sequence `b'x00'` = `[120, 48, 48]` once per unit of `len % 8` instead:
on a 1-byte data field the result is 4 bytes long (not 8) and contains
no 0x00 padding. -/
theorem c2_padding_is_not_null_bytes :
    spduPad [170] = [170, 120, 48, 48] ∧
    (spduPad [170]).length % 8 = 4 ∧
    spduPad [170] ≠ [170, 0, 0, 0, 0, 0, 0, 0] := by
  decide

/-- C3 counterexample: with stored counter L = 5 and current counter
C = 5 (a non-consecutive, non-wrap pair), the code reports `-1` dropped
packets, not `(C - L - 1) mod 2^24 = 16777215` as the claim states. -/
theorem c3_counterexample :
    (Demuxer.continuity 5 5).2 = some (-1) ∧
    (Demuxer.continuity 5 5).2 ≠ some (((5 : Int) - 5 - 1) % 2 ^ 24) := by
  decide

/-- C3 amended: for every VCDU after the first one processed (stored
counter `0 ≤ L < 2^24`): the wrap pair `L = 2^24 - 1, C = 0` reports
nothing; consecutive counters (`C = L + 1`) report nothing; any other
pair reports exactly `C - L - 1` dropped packets computed as a plain
signed integer (negative when the counter does not advance), not
reduced mod 2^24; afterwards the stored counter equals `C`. -/
theorem c3_amended (L : Int) (C : Nat) (h0 : 0 ≤ L) (h1 : L < 2 ^ 24) :
    (Demuxer.continuity L C).1 = (C : Int) ∧
    (L = 2 ^ 24 - 1 ∧ C = 0 → (Demuxer.continuity L C).2 = none) ∧
    ((C : Int) = L + 1 → (Demuxer.continuity L C).2 = none) ∧
    (¬(L = 2 ^ 24 - 1 ∧ C = 0) → (C : Int) ≠ L + 1 →
      (Demuxer.continuity L C).2 = some ((C : Int) - L - 1)) := by
  have hne : L ≠ -1 := by omega
  refine ⟨Demuxer.continuity_fst L C, ?_, ?_, ?_⟩
  · rintro ⟨hL, hC⟩
    simp only [Demuxer.continuity, if_pos hne]
    rw [if_pos ⟨by omega, hC⟩]
  · intro hC
    simp only [Demuxer.continuity, if_pos hne]
    split_ifs with hw hd
    · rfl
    · exfalso; apply hd; omega
    · rfl
  · intro hw hC
    simp only [Demuxer.continuity, if_pos hne]
    rw [if_neg (by omega : ¬(L = 16777215 ∧ C = 0))]
    rw [if_pos (by omega : (C : Int) - L - 1 ≠ 0)]

/-- C3 amended, witness: stored counter 5, current counter 9 reports 3
dropped packets. -/
theorem c3_amended_witness : (Demuxer.continuity 5 9).2 = some 3 := by
  have h := (c3_amended 5 9 (by decide) (by decide)).2.2.2 (by decide) (by decide)
  simpa using h

/-- C4 counterexample: a TP_File header declaring
`file_length_bits = 2^56 - 1` (bytes `[0,1, 0,255,255,255,255,255,255,255]`)
yields declared byte length 9007199254740992 = 2^53 (the float division
`int(bits / 8)` rounds up), while exact integer division gives
`(2^56 - 1) / 8 = 2^53 - 1`. -/
theorem c4_counterexample :
    get_bits_int ([0, 1, 0, 255, 255, 255, 255, 255, 255, 255].take 10) 16 64 80
      = 2 ^ 56 - 1 ∧
    (TP_File.parse [0, 1, 0, 255, 255, 255, 255, 255, 255, 255]).map TP_File.LENGTH
      = some 9007199254740992 ∧
    pyIntDivFloat8 (2 ^ 56 - 1) ≠ (2 ^ 56 - 1) / 8 := by
  refine ⟨by decide, ?_, by decide⟩
  decide

/-- C4 amended: the declared byte length equals
`int(file_length_bits / 8)` computed with Python float division, which
agrees with exact integer division for every `file_length_bits < 2^53`
(the round-to-double step is then the identity); and when a LAST CP_PDU
closes the TP_File, the payload (CRC trailer stripped) is appended and
an xRIT file is emitted if and only if the final payload length equals
the declared byte length, otherwise the file is skipped. -/
theorem c4_amended :
    (∀ bits : Nat, bits < 2 ^ 53 → pyIntDivFloat8 bits = bits / 8) ∧
    (∀ (t : TP_File) (cp : CP_PDU), cp.SEQ = .LAST →
      Channel.handle_CPPDU (some t) cp =
        .ok (some (t.append (cp.PAYLOAD.take (cp.PAYLOAD.length - 2))),
          if (t.PAYLOAD ++ cp.PAYLOAD.take (cp.PAYLOAD.length - 2)).length = t.LENGTH
          then [t.PAYLOAD ++ cp.PAYLOAD.take (cp.PAYLOAD.length - 2)] else [])) := by
  constructor
  · intro bits h
    have hs : sizeAux 64 bits ≤ 53 := sizeAux_le_of_lt 64 bits 53 (by omega) h
    simp only [pyIntDivFloat8, roundDouble53, if_pos hs]
  · intro t cp hseq
    simp only [Channel.handle_CPPDU, hseq, TP_File.finish, TP_File.append]
    by_cases h : t.PAYLOAD.length + (cp.PAYLOAD.length - 2) = t.LENGTH
    · simp [List.length_append, List.length_take, h]
    · simp [List.length_append, List.length_take, h]

/-- C4 amended, witness: `file_length_bits = 80` gives declared length
10, and a LAST CP_PDU whose trailer-stripped payload completes the
declared length emits exactly its assembled payload. -/
theorem c4_amended_witness :
    pyIntDivFloat8 80 = 10 ∧
    Channel.handle_CPPDU (some ⟨1, 4, [5, 6]⟩) ⟨0, 0, 0, 7, .LAST, 3, 4, [7, 8, 0, 0]⟩ =
      .ok (some ⟨1, 4, [5, 6, 7, 8]⟩, [[5, 6, 7, 8]]) := by
  constructor
  · have h := c4_amended.1 80 (by decide)
    simpa using h
  · have h := c4_amended.2 ⟨1, 4, [5, 6]⟩ ⟨0, 0, 0, 7, .LAST, 3, 4, [7, 8, 0, 0]⟩ rfl
    simpa using h

/-- A Python-style `if not cond: x = False else: x = True` assignment,
where `cond` is itself an `if`-produced boolean, equals `decide` of any
proposition equivalent to `cond`. -/
theorem not_ite_bool_eq_decide (p q : Prop) [Decidable p] [Decidable q]
    (h : p ↔ q) :
    (if ¬ (if p then true else false) = true then false else true) = decide q := by
  by_cases hp : p
  · rw [if_pos hp]
    simp [h.mp hp]
  · rw [if_neg hp]
    have hq : ¬ q := fun hq => hp (h.mpr hq)
    simp [hq]

/-- The source CRC loop (index mask `0xFFFF`) and the spec's formula
(index mask `0xFF`) agree on byte data, because the CRC register stays
below 2^16 so the index stays below 2^8. -/
theorem crc_foldl_eq_spec (lut : Nat → Nat) :
    ∀ (l : List Nat) (crc : Nat), crc < 65536 → (∀ b ∈ l, b < 256) →
      l.foldl (crcStep lut) crc = l.foldl (crcStepSpec lut) crc := by
  intro l
  induction l with
  | nil => intro crc _ _; rfl
  | cons b bs ih =>
    intro crc hc hb
    have hb0 : b < 256 := hb b (List.mem_cons_self b bs)
    have h8 : crc >>> 8 < 256 := by
      rw [Nat.shiftRight_eq_div_pow]
      have : (2 : Nat) ^ 8 = 256 := by norm_num
      rw [this]
      omega
    have hx : (crc >>> 8) ^^^ b < 256 := by
      have h256 : (256 : Nat) = 2 ^ 8 := by norm_num
      rw [h256] at h8 hb0 ⊢
      exact Nat.xor_lt_two_pow h8 hb0
    have hstep : crcStep lut crc b = crcStepSpec lut crc b := by
      unfold crcStep crcStepSpec
      have e1 : ((crc >>> 8) ^^^ b) &&& 65535 = (crc >>> 8) ^^^ b := by
        have : ((crc >>> 8) ^^^ b) &&& 2 ^ 16 - 1 = (crc >>> 8) ^^^ b :=
          Nat.and_pow_two_sub_one_of_lt_two_pow (by omega)
        simpa using this
      have e2 : ((crc >>> 8) ^^^ b) &&& 255 = (crc >>> 8) ^^^ b := by
        have : ((crc >>> 8) ^^^ b) &&& 2 ^ 8 - 1 = (crc >>> 8) ^^^ b :=
          Nat.and_pow_two_sub_one_of_lt_two_pow (by omega)
        simpa using this
      rw [e1, e2]
    have hlt : crcStep lut crc b < 65536 := by
      unfold crcStep
      have : ((crc <<< 8) ^^^ lut (((crc >>> 8) ^^^ b) &&& 65535)) &&& 65535 < 2 ^ 16 :=
        Nat.and_lt_two_pow _ (by norm_num)
      omega
    rw [List.foldl_cons, List.foldl_cons, ← hstep]
    exact ih (crcStep lut crc b) hlt (fun x hx' => hb x (List.mem_cons_of_mem _ hx'))

/-- C5: for a CP_PDU parsed from at least 6 bytes, `finish(tail, lut)`
appends `tail` to the payload, reports `lenok` exactly when the payload
length equals the declared length (header length field + 1), and
reports `crcok` exactly when the CRC-16/CCITT-FALSE of `payload[:-2]`
(initial 0xFFFF, stepping by the spec's formula with the table index
masked to 8 bits) equals the big-endian 16-bit word in `payload[-2:]`. -/
theorem c5_finish_len_and_crc (lut : Nat → Nat) (data tail : List Nat)
    (h6 : 6 ≤ data.length)
    (hb : ∀ b ∈ data.drop 6 ++ tail, b < 256) :
    ∀ cp, CP_PDU.parse data = some cp →
      ((cp.finish tail lut).1.PAYLOAD = data.drop 6 ++ tail) ∧
      ((cp.finish tail lut).2.1 =
        decide ((data.drop 6 ++ tail).length
          = get_bits_int (data.take 6) 32 16 48 + 1)) ∧
      ((cp.finish tail lut).2.2 =
        decide (((data.drop 6 ++ tail).take ((data.drop 6 ++ tail).length - 2)).foldl
            (crcStepSpec lut) 65535
          = bytesToNat ((data.drop 6 ++ tail).drop ((data.drop 6 ++ tail).length - 2)))) := by
  intro cp hcp
  simp only [CP_PDU.parse] at hcp
  rw [if_neg (by omega : ¬ data.length < 6)] at hcp
  obtain rfl := Option.some.inj hcp
  refine ⟨rfl, ?_, ?_⟩
  · simp only [CP_PDU.finish, CP_PDU.append]
    by_cases h : (data.drop 6 ++ tail).length = get_bits_int (data.take 6) 32 16 48 + 1
    · simp [h]
    · simp [h]
  · simp only [CP_PDU.finish, CP_PDU.append, CP_PDU.CRC]
    have hfold :
        ((data.drop 6 ++ tail).take ((data.drop 6 ++ tail).length - 2)).foldl
            (crcStep lut) 65535
          = ((data.drop 6 ++ tail).take ((data.drop 6 ++ tail).length - 2)).foldl
            (crcStepSpec lut) 65535 := by
      refine crc_foldl_eq_spec lut _ 65535 (by omega) ?_
      intro x hx
      exact hb x (List.mem_of_mem_take hx)
    have hiff : (((data.drop 6 ++ tail).take ((data.drop 6 ++ tail).length - 2)).foldl
          (crcStep lut) 65535
        = bytesToNat ((data.drop 6 ++ tail).drop ((data.drop 6 ++ tail).length - 2))) ↔
        (((data.drop 6 ++ tail).take ((data.drop 6 ++ tail).length - 2)).foldl
          (crcStepSpec lut) 65535
        = bytesToNat ((data.drop 6 ++ tail).drop ((data.drop 6 ++ tail).length - 2))) := by
      rw [hfold]
    exact not_ite_bool_eq_decide _ _ hiff

/-- C5 witness: a CP_PDU parsed from `[0,0,0,0,0,3]` (declared length
3 + 1 = 4) with initial payload `[1,2]`, finished with `[3,4]`: the
length check succeeds and the CRC check fails (the trailer `[3,4]` is
not the CRC of `[1,2]` under the all-zero table). -/
theorem c5_finish_witness :
    ((⟨0, 0, 0, 0, .CONTINUE, 0, 4, [1, 2]⟩ : CP_PDU).finish [3, 4] (fun _ => 0)).1.PAYLOAD
      = [1, 2, 3, 4] ∧
    ((⟨0, 0, 0, 0, .CONTINUE, 0, 4, [1, 2]⟩ : CP_PDU).finish [3, 4] (fun _ => 0)).2.1 = true ∧
    ((⟨0, 0, 0, 0, .CONTINUE, 0, 4, [1, 2]⟩ : CP_PDU).finish [3, 4] (fun _ => 0)).2.2 = false := by
  have h := c5_finish_len_and_crc (fun _ => 0) [0, 0, 0, 0, 0, 3, 1, 2] [3, 4]
    (by decide) (by decide) ⟨0, 0, 0, 0, .CONTINUE, 0, 4, [1, 2]⟩ (by decide)
  refine ⟨h.1.trans (by decide), h.2.1.trans (by decide), h.2.2.trans (by decide)⟩

/-- C6: the S_PDU output `PLAINTEXT` is bit-identical to the input
TP_File payload whenever decryption does not apply: the key table is
empty, or the parsed 2-byte key index is `0x0000`, or the index is
absent from the key table — under the precondition that, when the key
table is non-empty, the header walk finds a type-7 key header and
`0x0000` is not itself an index of the table.  The DES primitive `des`
is universally quantified: it is never invoked in these cases. -/
theorem c6_plaintext_passthrough (des : List Nat → List Nat → List Nat)
    (keys : List (List Nat × List Nat)) (data : List Nat) :
    (keys = [] → S_PDU.plaintext des keys data = some data) ∧
    (∀ off, keys ≠ [] → 16 ≤ data.length →
      spduWalk (spduHeaderField data) ((spduHeaderField data).length + 1) 0 = some off →
      keys.lookup ([0, 0] : List Nat) = none →
      (spduKeyIndex data off = [0, 0] ∨ keys.lookup (spduKeyIndex data off) = none) →
      S_PDU.plaintext des keys data = some data) := by
  constructor
  · intro h
    simp [S_PDU.plaintext, h]
  · intro off hk hlen hwalk hzero hidx
    unfold S_PDU.plaintext
    rw [if_neg hk, if_neg (by omega : ¬ data.length < 16), hwalk]
    show (match keys.lookup (spduKeyIndex data off) with
          | some k => some (spduHeaderField data ++ des k (spduPad (spduDataField data)))
          | none => some data) = some data
    rcases hidx with hi | hi
    · rw [hi, hzero]
    · rw [hi]

/-- C6 witness: a 23-byte S_PDU whose header chain reaches a type-7 key
header at offset 16 carrying index `0x0000`, against a non-empty key
table (single key under index `0x0001`): the output equals the input. -/
theorem c6_plaintext_witness :
    S_PDU.plaintext (fun _ _ => [])
      [([0, 1], [1, 2, 3, 4, 5, 6, 7, 8])]
      [0, 0, 16, 0, 0, 0, 0, 23, 0, 0, 0, 0, 0, 0, 0, 0, 7, 0, 7, 0, 0, 0, 0] =
      some [0, 0, 16, 0, 0, 0, 0, 23, 0, 0, 0, 0, 0, 0, 0, 0, 7, 0, 7, 0, 0, 0, 0] := by
  refine (c6_plaintext_passthrough (fun _ _ => [])
    [([0, 1], [1, 2, 3, 4, 5, 6, 7, 8])]
    [0, 0, 16, 0, 0, 0, 0, 23, 0, 0, 0, 0, 0, 0, 0, 0, 7, 0, 7, 0, 0, 0, 0]).2
    16 (by decide) (by decide) (by decide) (by decide) (Or.inl (by decide))

/-- C8: a fill frame (VCID 63) carrying the configured spacecraft id
(SCID 195, "COMS-1") never creates or reaches a channel handler (the
channel map is unchanged and the dispatch list is empty), is never
written to the VCDU dump file, yet still updates the global continuity
counter to its VCDU counter. -/
theorem c8_fill_frames (lut : Nat → Nat) (st : DemuxState) (packet : List Nat)
    (v : VCDU) (hv : VCDU.parse packet = some v) (hfill : v.VCID = 63)
    (hsc : v.SCID = 195) :
    Demuxer.step lut st packet =
      .ok ({ channels := st.channels, vcduCounter := (v.COUNTER : Int) }, [], [], []) := by
  simp only [Demuxer.step, hv]
  rw [if_neg (by simp [VCDU.get_SC, hsc] : ¬ VCDU.get_SC v.SCID ≠ some "COMS-1")]
  rw [if_pos hfill, if_neg (by simp [hfill] : ¬ v.VCID ≠ 63)]
  rw [Demuxer.continuity_fst]

/-- C8 witness: a fill VCDU (header `30 FF 00 00 05 00`: SCID 195,
VCID 63, counter 5) fed to a fresh demuxer leaves the channel map
empty, dumps nothing, dispatches nothing, and sets the counter to 5. -/
theorem c8_fill_frames_witness :
    Demuxer.step (fun _ => 0) ⟨[], -1⟩ [48, 255, 0, 0, 5, 0] =
      .ok (⟨[], 5⟩, [], [], []) := by
  have h := c8_fill_frames (fun _ => 0) ⟨[], -1⟩ [48, 255, 0, 0, 5, 0]
    ⟨0, 195, 63, 5, 0, 0, []⟩ (by decide) rfl rfl
  simpa using h

/-- C10: when a CP_PDU with sequence flag CONTINUE or LAST is finished
while no TP_File is open on the channel, `Channel.data_in` does not
propagate the `AttributeError` raised inside the TP_File dispatch: the
completed CP_PDU is silently discarded (no emission, `cTPFile` still
absent) and processing continues with the newly opened CP_PDU. -/
theorem c10_dispatch_failure_caught (lut : Nat → Nat) (st : ChannelState)
    (m : List Nat) (mp : M_PDU) (cp cp2 : CP_PDU)
    (hcur : st.cCPPDU = some cp) (hseq : cp.SEQ = .CONTINUE ∨ cp.SEQ = .LAST)
    (htf : st.cTPFile = none)
    (hm : M_PDU.parse m = some mp) (hh : mp.POINTER ≠ 2047) (hp : mp.POINTER ≠ 0)
    (hcp2 : CP_PDU.parse (mp.PACKET.drop mp.POINTER) = some cp2)
    (hshort : ¬(1 < cp2.LENGTH ∧ cp2.LENGTH < 886 ∧ cp2.LENGTH < cp2.PAYLOAD.length)) :
    Channel.data_in lut st m =
      .ok ({ cCPPDU := if cp2.is_EOF then none else some cp2, cTPFile := none }, []) := by
  have hfp : Channel.finishPrev lut st.cCPPDU st.cTPFile (mp.PACKET.take mp.POINTER) =
      .ok (none, []) := by
    rw [hcur, htf]
    simp only [Channel.finishPrev]
    have hseq' : ((cp.finish (mp.PACKET.take mp.POINTER) lut).1).SEQ = cp.SEQ := rfl
    rcases hseq with h | h <;>
      simp only [Channel.handle_CPPDU, hseq', h]
  simp only [Channel.data_in, hm]
  rw [if_pos hh, if_pos hp, hfp, hcp2]
  simp only [Channel.shortCPPDU, if_neg hshort]
  rfl

/-- C10 witness: channel holding a LAST CP_PDU with no open TP_File;
an M_PDU with pointer 1 finishes it and opens a new CP_PDU; no
exception propagates, nothing is emitted, and the new CP_PDU is
installed. -/
theorem c10_dispatch_failure_witness :
    Channel.data_in (fun _ => 0)
      ⟨some ⟨0, 0, 0, 5, .LAST, 3, 10, [1, 2]⟩, none⟩
      [0, 1, 170, 0, 0, 0, 0, 0, 1] =
      .ok (⟨some ⟨0, 0, 0, 0, .CONTINUE, 0, 2, []⟩, none⟩, []) := by
  have h := c10_dispatch_failure_caught (fun _ => 0)
    ⟨some ⟨0, 0, 0, 5, .LAST, 3, 10, [1, 2]⟩, none⟩
    [0, 1, 170, 0, 0, 0, 0, 0, 1]
    ⟨1, [170, 0, 0, 0, 0, 0, 1]⟩
    ⟨0, 0, 0, 5, .LAST, 3, 10, [1, 2]⟩
    ⟨0, 0, 0, 0, .CONTINUE, 0, 2, []⟩
    rfl (Or.inr rfl) rfl (by decide) (by decide) (by decide) (by decide) (by decide)
  simpa using h

/-- C9: whenever `Channel.data_in` opens a new CP_PDU matching the
EOF-marker pattern (APID 0, counter 0, CONTINUE, declared length 1),
that CP_PDU is discarded: the channel's current CP_PDU becomes `none`,
and the only TP_File-stage activity (and hence every emission) in that
call comes from finishing the previous CP_PDU — the EOF marker itself
is never dispatched. -/
theorem c9_eof_marker_discarded (lut : Nat → Nat) (st : ChannelState)
    (m : List Nat) (mp : M_PDU) (cp : CP_PDU) (tf1 : Option TP_File)
    (em1 : List (List Nat))
    (hm : M_PDU.parse m = some mp) (hh : mp.POINTER ≠ 2047)
    (hcp : CP_PDU.parse (if mp.POINTER = 0 then mp.PACKET
            else mp.PACKET.drop mp.POINTER) = some cp)
    (heof : cp.is_EOF = true)
    (hfin : if mp.POINTER = 0 then tf1 = st.cTPFile ∧ em1 = []
            else Channel.finishPrev lut st.cCPPDU st.cTPFile
              (mp.PACKET.take mp.POINTER) = .ok (tf1, em1)) :
    Channel.data_in lut st m = .ok ({ cCPPDU := none, cTPFile := tf1 }, em1) := by
  have hL : cp.LENGTH = 1 := by
    by_contra hc
    simp [CP_PDU.is_EOF] at heof
    exact hc heof.2.2.1
  simp only [Channel.data_in, hm]
  rw [if_pos hh]
  by_cases hp : mp.POINTER = 0
  · rw [if_neg (by simpa using hp : ¬ mp.POINTER ≠ 0)]
    rw [if_pos hp] at hcp
    obtain ⟨rfl, rfl⟩ := (by rwa [if_pos hp] at hfin :
      tf1 = st.cTPFile ∧ em1 = [])
    rw [hcp]
    simp [heof]
  · rw [if_pos hp]
    rw [if_neg hp] at hcp hfin
    rw [hfin, hcp]
    have hns : ¬(1 < cp.LENGTH ∧ cp.LENGTH < 886 ∧ cp.LENGTH < cp.PAYLOAD.length) := by
      rw [hL]; omega
    simp only [Channel.shortCPPDU, if_neg hns]
    simp [heof]

/-- C9 witness: an M_PDU with pointer 0 carrying exactly the EOF-marker
CP_PDU header (six zero bytes): the channel ends with no current
CP_PDU, nothing dispatched, nothing emitted. -/
theorem c9_eof_marker_witness :
    Channel.data_in (fun _ => 0) ⟨none, none⟩ [0, 0, 0, 0, 0, 0, 0, 0] =
      .ok (⟨none, none⟩, []) := by
  have h := c9_eof_marker_discarded (fun _ => 0) ⟨none, none⟩
    [0, 0, 0, 0, 0, 0, 0, 0] ⟨0, [0, 0, 0, 0, 0, 0]⟩
    ⟨0, 0, 0, 0, .CONTINUE, 0, 1, []⟩ none []
    (by decide) (by decide) (by decide) (by decide) (by decide)
  exact h

/-- C7: when a newly opened CP_PDU (after a non-zero pointer) has
declared length strictly between 1 and 886 and its initial payload
already exceeds that length, the payload is trimmed to exactly the
declared length, the CP_PDU is finished with an empty tail (leaving the
trimmed payload unchanged), and that completed CP_PDU is handed to the
TP_File stage (`Channel.handle_CPPDU`), whose outcome determines the
call's result.  (Stated with no CP_PDU previously open, so the finish
stage contributes nothing.) -/
theorem c7_short_cppdu (lut : Nat → Nat) (st : ChannelState)
    (m : List Nat) (mp : M_PDU) (cp2 : CP_PDU)
    (h0 : st.cCPPDU = none)
    (hm : M_PDU.parse m = some mp) (hh : mp.POINTER ≠ 2047) (hp : mp.POINTER ≠ 0)
    (hcp2 : CP_PDU.parse (mp.PACKET.drop mp.POINTER) = some cp2)
    (hl1 : 1 < cp2.LENGTH) (hl2 : cp2.LENGTH < 886)
    (hex : cp2.LENGTH < cp2.PAYLOAD.length) :
    (({ cp2 with PAYLOAD := cp2.PAYLOAD.take cp2.LENGTH } : CP_PDU).PAYLOAD.length
        = cp2.LENGTH) ∧
    ((({ cp2 with PAYLOAD := cp2.PAYLOAD.take cp2.LENGTH } : CP_PDU).finish [] lut).1
        = { cp2 with PAYLOAD := cp2.PAYLOAD.take cp2.LENGTH }) ∧
    (Channel.data_in lut st m =
      match Channel.handle_CPPDU st.cTPFile
          { cp2 with PAYLOAD := cp2.PAYLOAD.take cp2.LENGTH } with
      | .ok (tf2, em2) =>
        .ok ({ cCPPDU := some { cp2 with PAYLOAD := cp2.PAYLOAD.take cp2.LENGTH },
               cTPFile := tf2 }, em2)
      | .err .attr =>
        .ok ({ cCPPDU := some { cp2 with PAYLOAD := cp2.PAYLOAD.take cp2.LENGTH },
               cTPFile := st.cTPFile }, [])
      | .err .fail => .err .fail) := by
  have hlen : (cp2.PAYLOAD.take cp2.LENGTH).length = cp2.LENGTH := by
    rw [List.length_take]
    omega
  have hfin : (({ cp2 with PAYLOAD := cp2.PAYLOAD.take cp2.LENGTH } : CP_PDU).finish [] lut).1
      = { cp2 with PAYLOAD := cp2.PAYLOAD.take cp2.LENGTH } := by
    simp [CP_PDU.finish, CP_PDU.append]
  refine ⟨hlen, hfin, ?_⟩
  have hne : ({ cp2 with PAYLOAD := cp2.PAYLOAD.take cp2.LENGTH } : CP_PDU).is_EOF = false := by
    rw [CP_PDU.is_EOF, if_neg]
    rintro ⟨-, -, hL, -⟩
    have hL' : cp2.LENGTH = 1 := hL
    omega
  simp only [Channel.data_in, hm]
  rw [if_pos hh, if_pos hp]
  rw [show Channel.finishPrev lut st.cCPPDU st.cTPFile (mp.PACKET.take mp.POINTER)
      = .ok (st.cTPFile, []) from by rw [h0]; rfl]
  rw [hcp2]
  simp only [Channel.shortCPPDU, if_pos (⟨hl1, hl2, hex⟩ :
    1 < cp2.LENGTH ∧ cp2.LENGTH < 886 ∧ cp2.LENGTH < cp2.PAYLOAD.length)]
  rw [hfin]
  rcases hres : Channel.handle_CPPDU st.cTPFile
      { cp2 with PAYLOAD := cp2.PAYLOAD.take cp2.LENGTH } with ⟨tf2, em2⟩ | e
  · simp [hne]
  · cases e
    · simp [hne]
    · rfl

/-- C7 witness: pointer 1; the new CP_PDU has declared length 2 (flag
SINGLE) but 3 payload bytes; the payload is trimmed to `[9, 9]`, handed
to the TP_File stage (which ignores SINGLE), and installed as the
current CP_PDU. -/
theorem c7_short_cppdu_witness :
    Channel.data_in (fun _ => 0) ⟨none, none⟩
      [0, 1, 187, 0, 0, 192, 0, 0, 1, 9, 9, 9] =
      .ok (⟨some ⟨0, 0, 0, 0, .SINGLE, 0, 2, [9, 9]⟩, none⟩, []) := by
  have h := c7_short_cppdu (fun _ => 0) ⟨none, none⟩
    [0, 1, 187, 0, 0, 192, 0, 0, 1, 9, 9, 9]
    ⟨1, [187, 0, 0, 192, 0, 0, 1, 9, 9, 9]⟩
    ⟨0, 0, 0, 0, .SINGLE, 0, 2, [9, 9, 9]⟩
    rfl (by decide) (by decide) (by decide) (by decide) (by decide) (by decide) (by decide)
  exact h.2.2.trans (by decide)
